import Mathlib

/-!
# Verification of the smart-storage-manager backend

Shallow embedding of `app/backend/disk_manager.py`, `app/backend/snapraid_manager.py`
and the progress-delivery part of `app/backend/app.py`, together with theorems that
settle the frozen specification claims.

Modelling conventions:
* External shell commands are abstracted by an environment `Env : String → CmdOutcome`
  giving, for each command line, the stdout the process would produce (`ok`), or the
  exception `subprocess.run` would raise (`exn`).  `run_command` wraps it exactly as the
  Python method does (catching the exception into an `"Error: ..."` string).
* Reads of `/sys` files are abstracted by `Fs : String → Option String`
  (`none` models an unreadable file, which the Python code turns into `"Unknown"`).
* Side effects (commands issued, progress-callback invocations, file writes) are
  recorded in an explicit trace (`TraceItem`), in execution order.
* Python `float` arithmetic is modelled by `ℚ`; `"%.1f"` formatting rounds half-to-even,
  like CPython.  A formatted size string `f"{x:.1f} GB"`/`"... TB"` is modelled by the
  information it carries, `SizeText` (the displayed one-decimal number and the unit).
* Wall-clock timestamps (`datetime.now()`) are not modelled; they appear in no claim.
-/

namespace SSM

/-! ## Python string primitives, modelled so that they compute by kernel reduction -/

/-- Characters accepted by Python's `str.strip()` / `\s` (ASCII whitespace). -/
def isPySpace (c : Char) : Bool :=
  c = ' ' || c = '\t' || c = '\n' || c = '\r' || c = '\u000B' || c = '\u000C'

/-- Python `str.strip()`. -/
def pyStrip (s : String) : String :=
  ⟨((s.toList.dropWhile isPySpace).reverse.dropWhile isPySpace).reverse⟩

/-- Helper for `pyReplace`: replace every occurrence of `pat` (nonempty) by `rep`.
The fuel argument (initially the length of the text) only forces structural recursion;
each step consumes at least one character, so it never runs out. -/
def replaceAux (pat rep : List Char) : Nat → List Char → List Char
  | 0, l => l
  | _ + 1, [] => []
  | fuel + 1, c :: rest =>
    if pat.isPrefixOf (c :: rest) then
      rep ++ replaceAux pat rep fuel ((c :: rest).drop pat.length)
    else
      c :: replaceAux pat rep fuel rest

/-- Python `str.replace(pat, rep)` (all occurrences; `pat` is never empty in this code base). -/
def pyReplace (s pat rep : String) : String :=
  if pat = "" then s else ⟨replaceAux pat.toList rep.toList s.toList.length s.toList⟩

/-- Python `str.endswith(suffix)`. -/
def pyEndsWith (s suffix : String) : Bool :=
  suffix.toList.isSuffixOf s.toList

/-- Helper for `pyContains`: does `pat` occur in the text? -/
def containsAux (pat : List Char) : List Char → Bool
  | [] => pat.isEmpty
  | c :: rest => pat.isPrefixOf (c :: rest) || containsAux pat rest

/-- Python `pat in s` on strings. -/
def pyContains (s pat : String) : Bool :=
  containsAux pat.toList s.toList

/-- Python `str.lower()` (ASCII). -/
def pyLower (s : String) : String :=
  ⟨s.toList.map Char.toLower⟩

/-- Python `str.split('\n')` (keeps empty fields). -/
def pySplitNl (s : String) : List String :=
  (s.toList.splitOn '\n').map fun l => ⟨l⟩

/-- Numeric value of a digit string. -/
def natOfDigits (ds : List Char) : Nat :=
  ds.foldl (fun a c => a * 10 + (c.toNat - '0'.toNat)) 0

/-- Python `int(s)` returning `none` where CPython raises `ValueError`. -/
def pyInt? (s : String) : Option Int :=
  match (pyStrip s).toList with
  | '-' :: ds =>
    if !ds.isEmpty && ds.all Char.isDigit then some (-(natOfDigits ds : Int)) else none
  | '+' :: ds =>
    if !ds.isEmpty && ds.all Char.isDigit then some (natOfDigits ds : Int) else none
  | ds =>
    if !ds.isEmpty && ds.all Char.isDigit then some (natOfDigits ds : Int) else none

/-- CPython's round-half-even to an integer. -/
def roundHalfEven (x : ℚ) : ℤ :=
  let n := ⌊x⌋
  if x - n < 1/2 then n
  else if 1/2 < x - n then n + 1
  else if n % 2 = 0 then n else n + 1

/-- `f"{x:.1f}"`'s numeric content: `x` rounded to one decimal place. -/
def round1 (q : ℚ) : ℚ :=
  (roundHalfEven (q * 10) : ℚ) / 10

/-! ## The external-process model -/

/-- What the outside world does with one shell command line. -/
inductive CmdOutcome where
  | ok (stdout : String)
  | exn (msg : String)

/-- The command collaborator: stdout or exception for each command line. -/
def Env : Type := String → CmdOutcome

/-- The `/sys` file collaborator (`none` = open raises). -/
def Fs : Type := String → Option String

/-- Environment in which every command succeeds with empty output. -/
def envOk : Env := fun _ => .ok ""

/-- Environment in which every command raises. -/
def envFail : Env := fun _ => .exn "boom"

/-! ## `disk_manager.py` — class `DiskManager` -/

namespace DiskManager

/-- The two configurable attributes set in `DiskManager.__init__`. -/
structure Cfg where
  excluded_types : List String := ["loop", "zram", "ram"]
  min_size_gb : ℚ := 10

/-- `DiskManager.run_command`: run a shell command, return stripped stdout;
a raised exception becomes the string `"Error: ..."`. -/
def run_command (env : Env) (cmd : String) : String :=
  match env cmd with
  | .ok out => pyStrip out
  | .exn e => "Error: " ++ e

/-- `DiskManager.get_system_disk`. -/
def get_system_disk (env : Env) : String :=
  let system_disk :=
    run_command env "df / | tail -1 | awk '\x7bprint $1\x7d' | sed 's/[0-9]*$//' | sed 's|/dev/||'"
  if system_disk = "" then
    run_command env "df /boot | tail -1 | awk '\x7bprint $1\x7d' | sed 's/[0-9]*$//' | sed 's|/dev/||'"
  else
    system_disk

/-- `DiskManager.is_usb_disk`. -/
def is_usb_disk (env : Env) (disk_name : String) : Bool :=
  let result :=
    run_command env s!"udevadm info --query=property --name=/dev/{disk_name} 2>/dev/null | grep 'ID_BUS=usb'"
  pyContains (pyLower result) "usb"

/-- `DiskManager.get_disk_size_gb`: `int(lsblk output) / 1024**3`, `0` on parse failure. -/
def get_disk_size_gb (env : Env) (disk_name : String) : ℚ :=
  let size_bytes := run_command env s!"lsblk -bdn -o SIZE /dev/{disk_name} 2>/dev/null"
  match pyInt? size_bytes with
  | some n => (n : ℚ) / (1024 ^ 3)
  | none => 0

/-- `DiskManager.get_disk_type`: rotational flag from `/sys`, `"Unknown"` when unreadable. -/
def get_disk_type (fs : Fs) (disk_name : String) : String :=
  match fs s!"/sys/block/{disk_name}/queue/rotational" with
  | some content => if pyStrip content = "1" then "HDD" else "SSD"
  | none => "Unknown"

/-- `DiskManager.get_disk_model`. -/
def get_disk_model (env : Env) (disk_name : String) : String :=
  pyStrip (run_command env s!"lsblk -dn -o MODEL /dev/{disk_name} 2>/dev/null")

/-- `DiskManager.get_disk_serial`. -/
def get_disk_serial (env : Env) (disk_name : String) : String :=
  run_command env s!"udevadm info --query=property --name=/dev/{disk_name} 2>/dev/null | grep 'ID_SERIAL_SHORT=' | cut -d= -f2"

/-- `DiskManager.is_mounted` (`bool(result)` on the stripped grep output). -/
def is_mounted (env : Env) (disk_name : String) : Bool :=
  run_command env s!"mount | grep '^/dev/{disk_name}'" ≠ ""

/-- `DiskManager.is_system_mount`. -/
def is_system_mount (env : Env) (disk_name : String) : Bool :=
  run_command env s!"mount | grep '^/dev/{disk_name}' | grep -E ' /boot | /home | /var | /usr '" ≠ ""

/-- Numeric content of `DiskManager.format_size`'s result string:
the one-decimal number displayed and whether the unit is TB. -/
structure SizeText where
  num : ℚ
  tb : Bool
deriving DecidableEq, Repr

/-- `DiskManager.format_size`. -/
def format_size (size_gb : ℚ) : SizeText :=
  if size_gb ≥ 1000 then ⟨round1 (size_gb / 1000), true⟩ else ⟨round1 size_gb, false⟩

/-- `DiskManager.parse_size`: first number in the string, times 1000 when the unit is TB. -/
def parse_size (s : SizeText) : ℚ :=
  if s.tb then s.num * 1000 else s.num

/-- One entry of the `available`/`excluded` lists built by `detect_all_disks`. -/
structure DiskInfo where
  name : String
  size : SizeText
  type : String
  model : String
  serial : String
  mounted : Bool
  reason : Option String
deriving DecidableEq, Repr

/-- The exclusion chain of `detect_all_disks` (the `if`/`elif` ladder, first match wins). -/
def excluded_reason (mgr : Cfg) (env : Env) (system_disk disk : String) : Option String :=
  if mgr.excluded_types.any (fun t => t.toList.isPrefixOf disk.toList) then
    some "جهاز افتراضي"
  else if disk = system_disk then
    some "قرص النظام"
  else if is_usb_disk env disk then
    some "قرص USB خارجي"
  else if get_disk_size_gb env disk < mgr.min_size_gb then
    some s!"صغير جداً (< {mgr.min_size_gb}GB)"
  else if is_system_mount env disk then
    some "مثبت على مجلدات النظام"
  else
    none

/-- The per-disk info dict built by `detect_all_disks`. -/
def disk_info_of (mgr : Cfg) (env : Env) (fs : Fs) (system_disk disk : String) : DiskInfo :=
  { name := "/dev/" ++ disk
    size := format_size (get_disk_size_gb env disk)
    type := get_disk_type fs disk
    model := get_disk_model env disk
    serial := get_disk_serial env disk
    mounted := is_mounted env disk
    reason := excluded_reason mgr env system_disk disk }

/-- The classification loop of `detect_all_disks`: skip empty names, then route each
disk into `available` or `excluded` according to `excluded_reason`. -/
def classify_all (mgr : Cfg) (env : Env) (fs : Fs) (system_disk : String) :
    List String → List DiskInfo × List DiskInfo
  | [] => ([], [])
  | disk :: rest =>
    let (av, ex) := classify_all mgr env fs system_disk rest
    if disk = "" then (av, ex)
    else
      let info := disk_info_of mgr env fs system_disk disk
      match excluded_reason mgr env system_disk disk with
      | some _ => (av, info :: ex)
      | none => (info :: av, ex)

/-- Python's `list.sort(key=…, reverse=True)` is a stable sort; on the original positions
it realises exactly the lexicographic order "key descending, then original index
ascending", which is what this relation expresses. -/
def stable_desc_rel {α : Type} (key : α → ℚ) (p q : Nat × α) : Prop :=
  key q.2 < key p.2 ∨ (key p.2 = key q.2 ∧ p.1 ≤ q.1)

instance {α : Type} (key : α → ℚ) : DecidableRel (stable_desc_rel key) := fun _ _ => by
  unfold stable_desc_rel
  infer_instance

/-- Model of Python `list.sort(key=…, reverse=True)` (stable, descending). -/
def py_sort_desc {α : Type} (key : α → ℚ) (l : List α) : List α :=
  (List.insertionSort (stable_desc_rel key) l.enum).map Prod.snd

/-- The command whose output enumerates all disks in `detect_all_disks`. -/
def lsblk_names_cmd : String :=
  "lsblk -dn -o NAME,TYPE | grep disk | awk '\x7bprint $1\x7d'"

/-- The two intermediate lists of `detect_all_disks`, before sorting. -/
def detect_classified (mgr : Cfg) (env : Env) (fs : Fs) : List DiskInfo × List DiskInfo :=
  classify_all mgr env fs (get_system_disk env) (pySplitNl (run_command env lsblk_names_cmd))

/-- Result dict of `detect_all_disks`. -/
structure DetectResult where
  available : List DiskInfo
  excluded : List DiskInfo
  system_disk : String
  count_available : Nat
  count_excluded : Nat
deriving DecidableEq, Repr

/-- `DiskManager.detect_all_disks`. -/
def detect_all_disks (mgr : Cfg) (env : Env) (fs : Fs) : DetectResult :=
  let (av, ex) := detect_classified mgr env fs
  let available := py_sort_desc (fun i => parse_size i.size) av
  { available := available
    excluded := ex
    system_disk := "/dev/" ++ get_system_disk env
    count_available := available.length
    count_excluded := ex.length }

/-! ### The destructive preparation pipeline and the provisioning orchestrator.

Side effects are recorded as an explicit trace.  A progress-callback invocation
`progress_callback(step, message, percentage)` becomes an `evt` item; every
`run_command` call becomes a `cmd` item carrying the command line and the string the
Python method returns for it (which `prepare_disk` and friends then ignore). -/

/-- One progress-callback invocation (`step`, `message`, `percentage`). -/
structure PEvent where
  step : String
  message : String
  percentage : ℚ
deriving DecidableEq, Repr

/-- One recorded side effect. -/
inductive TraceItem where
  | cmd (c : String) (result : String)
  | evt (e : PEvent)
  | mkdirs (path : String)
  | readFile (path : String)
  | appendFile (path : String) (content : String)
  | writeFile (path : String) (content : String)
deriving DecidableEq, Repr

/-- The progress events of a trace, in order: what the progress sink is handed. -/
def events (t : List TraceItem) : List PEvent :=
  t.filterMap fun
    | .evt e => some e
    | _ => none

/-- The command lines issued by a trace, in order. -/
def cmds (t : List TraceItem) : List String :=
  t.filterMap fun
    | .cmd c _ => some c
    | _ => none

/-- A `run_command` call as a trace item. -/
def cmdItem (env : Env) (c : String) : TraceItem :=
  .cmd c (run_command env c)

/-- `DiskManager.prepare_disk`: the irreversible unmount → wipe → zero → partition →
format sequence.  All command results are discarded, so the function runs every stage
and returns `True` no matter what the environment does. -/
def prepare_disk (env : Env) (disk_name label : String) : List TraceItem × Bool :=
  let disk := pyReplace disk_name "/dev/" ""
  ([ .evt ⟨"preparing", s!"تحضير {disk_name}", 0⟩,
     cmdItem env s!"umount /dev/{disk}* 2>/dev/null",
     .evt ⟨"wiping", "مسح البيانات القديمة", 20⟩,
     cmdItem env s!"wipefs -af /dev/{disk}",
     cmdItem env s!"dd if=/dev/zero of=/dev/{disk} bs=1M count=100 2>/dev/null",
     .evt ⟨"partitioning", "إنشاء جدول تقسيم", 40⟩,
     cmdItem env s!"parted -s /dev/{disk} mklabel gpt",
     .evt ⟨"creating", "إنشاء partition", 60⟩,
     cmdItem env s!"parted -s /dev/{disk} mkpart primary ext4 0% 100%",
     cmdItem env s!"partprobe /dev/{disk}",
     cmdItem env "sleep 2",
     .evt ⟨"formatting", "تهيئة نظام الملفات", 80⟩,
     cmdItem env s!"mkfs.ext4 -F -L {label} /dev/{disk}1",
     .evt ⟨"complete", s!"اكتمل تحضير {disk_name}", 100⟩ ],
   true)

/-- The command lines `prepare_disk` issues, in order (for stating env-independence). -/
def prep_commands (disk_name label : String) : List String :=
  let disk := pyReplace disk_name "/dev/" ""
  [ s!"umount /dev/{disk}* 2>/dev/null",
    s!"wipefs -af /dev/{disk}",
    s!"dd if=/dev/zero of=/dev/{disk} bs=1M count=100 2>/dev/null",
    s!"parted -s /dev/{disk} mklabel gpt",
    s!"parted -s /dev/{disk} mkpart primary ext4 0% 100%",
    s!"partprobe /dev/{disk}",
    "sleep 2",
    s!"mkfs.ext4 -F -L {label} /dev/{disk}1" ]

/-- One element of the `prepared_data` list built by `setup_manual`. -/
structure PreparedDisk where
  disk : String
  label : String
  number : Nat
deriving DecidableEq, Repr

/-- `DiskManager.get_uuid`: query `blkid` for `disk + "1"`, unless `disk` already ends
in the character `'1'`, in which case query `disk` itself.  Returns (trace, value). -/
def get_uuid (env : Env) (disk : String) : List TraceItem × String :=
  let disk_part := if pyEndsWith disk "1" then disk else disk ++ "1"
  let c := s!"blkid -s UUID -o value {disk_part}"
  ([cmdItem env c], run_command env c)

/-- The lines `setup_fstab` appends to `/etc/fstab` (after the leading comment line). -/
def fstab_new_entries (env : Env) (parity_disk : String) (data_disks : List PreparedDisk) :
    List String :=
  let parity_uuid := (get_uuid env parity_disk).2
  "\n# Smart Storage Manager"
    :: s!"UUID={parity_uuid}  /mnt/parity  ext4  defaults,noatime,nofail  0  2"
    :: data_disks.map fun d =>
        let disk_uuid := (get_uuid env d.disk).2
        s!"UUID={disk_uuid}  /mnt/disk{d.number}  ext4  defaults,noatime,nofail  0  2"

/-- `DiskManager.setup_fstab`: create mount points, resolve UUIDs, append the new
entries to `/etc/fstab` and `mount -a`. -/
def setup_fstab (env : Env) (parity_disk : String) (data_disks : List PreparedDisk) :
    List TraceItem :=
  [TraceItem.mkdirs "/mnt/parity"]
    ++ data_disks.map (fun d => TraceItem.mkdirs s!"/mnt/disk{d.number}")
    ++ [TraceItem.mkdirs "/mnt/storage"]
    ++ (get_uuid env parity_disk).1
    ++ [TraceItem.readFile "/etc/fstab"]
    ++ (data_disks.map fun d => (get_uuid env d.disk).1).flatten
    ++ [TraceItem.appendFile "/etc/fstab"
          (String.intercalate "\n" (fstab_new_entries env parity_disk data_disks))]
    ++ [cmdItem env "mount -a"]

/-- The fstab line `setup_mergerfs` appends. -/
def mergerfs_line : String :=
  "/mnt/disk* /mnt/storage fuse.mergerfs defaults,allow_other,use_ino,cache.files=partial,dropcacheonclose=true,category.create=mfs,minfreespace=20G,fsname=mergerfs 0 0"

/-- `DiskManager.setup_mergerfs`. -/
def setup_mergerfs (env : Env) : List TraceItem :=
  [TraceItem.appendFile "/etc/fstab" ("\n" ++ mergerfs_line ++ "\n"),
   cmdItem env "mount -a"]

/-- The fixed exclusion list written into `/etc/snapraid.conf`. -/
def snapraid_exclusions : List String :=
  [ "exclude *.unrecoverable",
    "exclude /tmp/",
    "exclude /lost+found/",
    "exclude *.!sync",
    "exclude .AppleDouble",
    "exclude ._AppleDouble",
    "exclude .DS_Store",
    "exclude .Thumbs.db",
    "exclude .fseventsd",
    "exclude .Spotlight-V100",
    "exclude .TemporaryItems",
    "exclude .Trashes" ]

/-- The pieces `setup_snapraid_config` concatenates into `/etc/snapraid.conf`
(`f.writelines` concatenates them without separators). -/
def snapraid_config (parity_disk : String) (data_disks : List PreparedDisk) : List String :=
  [ "# SnapRAID Configuration - Smart Storage Manager\n",
    "parity /mnt/parity/snapraid.parity\n",
    "\ncontent /var/snapraid.content" ]
    ++ data_disks.map (fun d => s!"content /mnt/disk{d.number}/.snapraid.content")
    ++ ["\n"]
    ++ data_disks.map (fun d => s!"data d{d.number} /mnt/disk{d.number}")
    ++ ["\n# Exclusions"]
    ++ snapraid_exclusions.map (fun e => e ++ "\n")
    ++ ["\nblock_size 256", "\nautosave 500\n"]

/-- `DiskManager.setup_snapraid_config`. -/
def setup_snapraid_config (parity_disk : String) (data_disks : List PreparedDisk) :
    List TraceItem :=
  [TraceItem.writeFile "/etc/snapraid.conf" (String.join (snapraid_config parity_disk data_disks))]

/-- Return dict of `setup_manual`. -/
structure SetupResult where
  success : Bool
  parity : String
  data_disks : List PreparedDisk
  message : String
deriving DecidableEq, Repr

/-- The data-disk loop of `setup_manual` (`for idx, disk in enumerate(data_disks, 1)`).
`idx` is the 1-based position; the running `current_step` there is `1 + idx`. -/
def data_loop (env : Env) (total_steps : Nat) :
    List String → Nat → List TraceItem × List PreparedDisk
  | [], _ => ([], [])
  | disk :: rest, idx =>
    let current_step := 1 + idx
    let label := s!"disk{idx}"
    let head_items :=
      TraceItem.evt ⟨"data", s!"تحضير Data Disk {idx} ({current_step}/{total_steps})",
          ((current_step : ℚ) / (total_steps : ℚ)) * 100⟩
        :: (prepare_disk env disk label).1
    let (rest_items, rest_prepared) := data_loop env total_steps rest (idx + 1)
    (head_items ++ rest_items, ⟨disk, label, idx⟩ :: rest_prepared)

/-- `DiskManager.setup_manual`: the provisioning orchestrator.  Note that it performs
no disk-count check, and that it hands the *same* `progress_callback` down to
`prepare_disk`, so the sink receives the per-stage preparation events interleaved
between the orchestrator-level step events. -/
def setup_manual (env : Env) (parity_disk : String) (data_disks : List String) :
    List TraceItem × SetupResult :=
  let total_steps := 1 + data_disks.length + 3
  let (data_items, prepared_data) := data_loop env total_steps data_disks 1
  let s2 := 1 + data_disks.length + 1
  let s3 := 1 + data_disks.length + 2
  let s4 := 1 + data_disks.length + 3
  ( TraceItem.evt ⟨"parity", s!"تحضير Parity (1/{total_steps})",
        ((1 : ℚ) / (total_steps : ℚ)) * 100⟩
      :: (prepare_disk env parity_disk "parity").1
      ++ data_items
      ++ TraceItem.evt ⟨"fstab", s!"إعداد fstab ({s2}/{total_steps})",
            ((s2 : ℚ) / (total_steps : ℚ)) * 100⟩
        :: setup_fstab env parity_disk prepared_data
      ++ TraceItem.evt ⟨"mergerfs", s!"إعداد MergerFS ({s3}/{total_steps})",
            ((s3 : ℚ) / (total_steps : ℚ)) * 100⟩
        :: setup_mergerfs env
      ++ TraceItem.evt ⟨"snapraid", s!"إعداد SnapRAID ({s4}/{total_steps})",
            ((s4 : ℚ) / (total_steps : ℚ)) * 100⟩
        :: setup_snapraid_config parity_disk prepared_data,
    ⟨true, parity_disk, prepared_data, "تم الإعداد بنجاح"⟩ )

/-- `DiskManager.setup_automatic`: raise unless at least two disks are given, then sort
by capacity (largest first, stable) and delegate to `setup_manual` with the largest
disk as parity.  The `sorted(...)` key calls `get_disk_size_gb` once per disk, in list
order, which is where the recorded `lsblk` size queries come from. -/
def setup_automatic (env : Env) (disk_list : List String) :
    Except String (List TraceItem × SetupResult) :=
  if disk_list.length < 2 then
    .error "يجب توفير قرصين على الأقل"
  else
    let size_queries := disk_list.map fun d =>
      let name := pyReplace d "/dev/" ""
      cmdItem env s!"lsblk -bdn -o SIZE /dev/{name} 2>/dev/null"
    let sorted_disks :=
      py_sort_desc (fun d => get_disk_size_gb env (pyReplace d "/dev/" "")) disk_list
    match sorted_disks with
    | parity_disk :: rest =>
      let (items, result) := setup_manual env parity_disk rest
      .ok (size_queries ++ items, result)
    | [] => .error "يجب توفير قرصين على الأقل"

end DiskManager

/-! ## `snapraid_manager.py` — class `SnapRAIDManager` -/

namespace SnapRAIDManager

/-- The names bound at the top of `snapraid_manager.py` (its `import` lines):
`subprocess`, `re`, `datetime` — and nothing else.  In particular `os` is **not**
imported, although `get_status` uses `os.path.exists`. -/
def module_imports : List String := ["subprocess", "re", "datetime"]

/-- `SnapRAIDManager.run_command`: unlike the `DiskManager` one, returns raw stdout
(no strip); a raised exception becomes the string `"Error: ..."`. -/
def run_command (env : Env) (cmd : String) : String :=
  match env cmd with
  | .ok out => out
  | .exn e => "Error: " ++ e

/-- Match of the regex `(\d+)\s+(?:added|removed|updated)` anchored at the start of the
text: the captured number and the rest after the whole match.  (Greedy `\d+`/`\s+` need
no backtracking here because digits, whitespace and the keywords' first letters are
pairwise disjoint character classes.) -/
def match_change_at (l : List Char) : Option (Nat × List Char) :=
  let ds := l.takeWhile Char.isDigit
  let r1 := l.dropWhile Char.isDigit
  if ds.isEmpty then none
  else if (r1.takeWhile isPySpace).isEmpty then none
  else
    let r2 := r1.dropWhile isPySpace
    if "added".toList.isPrefixOf r2 then some (natOfDigits ds, r2.drop 5)
    else if "removed".toList.isPrefixOf r2 then some (natOfDigits ds, r2.drop 7)
    else if "updated".toList.isPrefixOf r2 then some (natOfDigits ds, r2.drop 7)
    else none

/-- `re.findall(r'(\d+)\s+(?:added|removed|updated)', text)`: scan left to right,
non-overlapping, resuming after each match.  The fuel (initially the text length)
only forces structural recursion; every step consumes at least one character. -/
def scan_changes_aux : Nat → List Char → List Nat
  | 0, _ => []
  | _ + 1, [] => []
  | fuel + 1, c :: rest =>
    match match_change_at (c :: rest) with
    | some (n, r) => n :: scan_changes_aux fuel r
    | none => scan_changes_aux fuel rest

/-- All captures of `(\d+)\s+(?:added|removed|updated)` in the text. -/
def scan_changes (l : List Char) : List Nat :=
  scan_changes_aux l.length l

/-- Match of `(\d+)\s+files` anchored at the start of the text. -/
def match_files_at (l : List Char) : Option Nat :=
  let ds := l.takeWhile Char.isDigit
  let r1 := l.dropWhile Char.isDigit
  if ds.isEmpty then none
  else if (r1.takeWhile isPySpace).isEmpty then none
  else
    let r2 := r1.dropWhile isPySpace
    if "files".toList.isPrefixOf r2 then some (natOfDigits ds) else none

/-- `re.search(r'(\d+)\s+files', text)`: first match, scanning left to right. -/
def search_files : List Char → Option Nat
  | [] => none
  | c :: rest =>
    match match_files_at (c :: rest) with
    | some n => some n
    | none => search_files rest

/-- The status dict built by `get_status`. -/
structure ParityStatus where
  configured : Bool
  protected_flag : Bool
  files_count : Nat
  changes : Nat
  last_sync : Option String
deriving DecidableEq, Repr

/-- The parsing part of `get_status` (lines 39–52): sentinel check — note the
case-sensitive `'No differences' in output` — then the change sum, then the first
`<n> files` occurrence. -/
def parse_status_output (configured : Bool) (output : String) : ParityStatus :=
  let base : ParityStatus :=
    { configured := configured, protected_flag := false, files_count := 0,
      changes := 0, last_sync := none }
  let st :=
    if pyContains output "No differences" then
      { base with protected_flag := true, changes := 0 }
    else
      { base with changes := (scan_changes output.toList).sum }
  match search_files output.toList with
  | some n => { st with files_count := n }
  | none => st

/-- `SnapRAIDManager.get_status`: runs `snapraid status`, then builds the status dict.
Its first entry evaluates `os.path.exists(self.config_file)`, and `os` is not among
`module_imports`, so every call raises `NameError` before any parsing happens.
`config_file_exists` stands for what `os.path.exists('/etc/snapraid.conf')` would
return if the name lookup succeeded. -/
def get_status (env : Env) (config_file_exists : Bool) : Except String ParityStatus :=
  let output := run_command env "/usr/local/bin/snapraid status"
  if "os" ∈ module_imports then
    .ok (parse_status_output config_file_exists output)
  else
    .error "NameError: name 'os' is not defined"

/-- One event yielded by `sync_with_progress` / `scrub_with_progress`.
The `timestamp` entry (wall clock) is not modelled. -/
structure StreamEvent where
  type : String
  message : String
  success : Option Bool
deriving DecidableEq, Repr

/-- The line loop of `sync_with_progress`: `for line in iter(process.stdout.readline, '')`,
yielding one event per truthy line.  `lines` is the list of strings `readline` returns
before the terminating `''`. -/
def sync_line_events : List String → List StreamEvent
  | [] => []
  | line :: rest =>
    (if line ≠ "" then [⟨"sync", pyStrip line, none⟩] else []) ++ sync_line_events rest

/-- `SnapRAIDManager.sync_with_progress`: per-line events, then exactly one terminal
event — `complete{success:true}` on exit code 0, `error{success:false}` otherwise. -/
def sync_with_progress (lines : List String) (returncode : Int) : List StreamEvent :=
  sync_line_events lines ++
    (if returncode = 0 then [⟨"complete", "اكتمل Sync بنجاح", some true⟩]
     else [⟨"error", "فشل Sync", some false⟩])

/-- The line loop of `scrub_with_progress`. -/
def scrub_line_events : List String → List StreamEvent
  | [] => []
  | line :: rest =>
    (if line ≠ "" then [⟨"scrub", pyStrip line, none⟩] else []) ++ scrub_line_events rest

/-- `SnapRAIDManager.scrub_with_progress`: per-line events, then always a `complete`
event with `success = (returncode == 0)`. -/
def scrub_with_progress (lines : List String) (returncode : Int) : List StreamEvent :=
  scrub_line_events lines ++ [⟨"complete", "اكتمل Scrub", some (decide (returncode = 0))⟩]

end SnapRAIDManager

/-! ## `app.py` — the progress-delivery sink of the transport layer -/

namespace AppBackend

/-- The dict `emit_progress` sends over the socket: `percentage` is present only when
the supplied value was truthy. -/
structure DeliveredProgress where
  step : String
  message : String
  percentage : Option ℚ
deriving DecidableEq, Repr

/-- Python truthiness of an optional number (`None` and `0` are falsy). -/
def py_truthy_num : Option ℚ → Bool
  | none => false
  | some p => decide (p ≠ 0)

/-- `app.emit_progress`: builds `{'step': …, 'message': …}` and adds the
`'percentage'` key only under `if percentage:`. -/
def emit_progress (step message : String) (percentage : Option ℚ) : DeliveredProgress :=
  let data : DeliveredProgress := { step := step, message := message, percentage := none }
  if py_truthy_num percentage then { data with percentage := percentage } else data

end AppBackend

/-! ## Theorems settling the claims -/

open DiskManager SnapRAIDManager AppBackend

/-! ### C4 — `parseStatus` totality -/

/-- C4: the claim says `parseStatus(rawText)` returns a structured status and never
raises.  In the code, `get_status` evaluates `os.path.exists(self.config_file)` while
building the status dict, but the module never imports `os`, so **every** call raises
`NameError: name 'os' is not defined` — for any tool output and any configuration
state.  The claim describes the evident intent (`§4.6`: best-effort, never fails);
the missing import is a slip in the code. -/
theorem get_status_always_raises_name_error (env : Env) (config_file_exists : Bool) :
    get_status env config_file_exists = .error "NameError: name 'os' is not defined" := by
  simp [get_status, module_imports]

/-! ### C5 — the status parser -/

/-- C5 counterexample: the claim's example `parseStatus("no differences found") =
{protected: true, changes: 0}` is false on the code: the sentinel test
`'No differences' in output` is case-sensitive, so the lowercase text takes the
`else` branch and `protected` stays `False`. -/
theorem parse_status_lowercase_sentinel_not_protected :
    (parse_status_output true "no differences found").protected_flag = false := by
  decide

/-- C5 (amended): with the case-sensitive sentinel `'No differences'`: text containing
the sentinel yields `protected = true` and `changes = 0`; otherwise `protected` stays
`false` and `changes` is the sum of all `<n> added|removed|updated` captures (`0` when
none match); `files_count` is the first `<n> files` capture (`0` when absent).  In
particular `"No differences found"` yields `protected = true, changes = 0`, and
`"3 added, 2 removed, 12 files"` yields `changes = 5, files_count = 12`. -/
theorem parse_status_case_sensitive_sentinel (configured : Bool) (output : String) :
    (pyContains output "No differences" = true →
      (parse_status_output configured output).protected_flag = true ∧
      (parse_status_output configured output).changes = 0)
    ∧ (pyContains output "No differences" = false →
      (parse_status_output configured output).protected_flag = false ∧
      (parse_status_output configured output).changes = (scan_changes output.toList).sum)
    ∧ (parse_status_output configured output).files_count
        = (search_files output.toList).getD 0
    ∧ (parse_status_output true "No differences found").protected_flag = true
    ∧ (parse_status_output true "No differences found").changes = 0
    ∧ (parse_status_output true "3 added, 2 removed, 12 files").changes = 5
    ∧ (parse_status_output true "3 added, 2 removed, 12 files").files_count = 12 := by
  refine ⟨fun h => ?_, fun h => ?_, ?_, by decide, by decide, by decide, by decide⟩
  · cases hf : search_files output.data <;>
      simp [parse_status_output, h, hf, String.toList]
  · cases hf : search_files output.data <;>
      simp [parse_status_output, h, hf, String.toList]
  · cases hf : search_files output.data <;>
      cases hc : pyContains output "No differences" <;>
      simp [parse_status_output, hc, hf, String.toList]

/-- C5 witness: the amended sentinel branch applied at a concrete input. -/
theorem parse_status_case_sensitive_sentinel_witness :
    (parse_status_output true "No differences found").protected_flag = true ∧
    (parse_status_output true "No differences found").changes = 0 :=
  (parse_status_case_sensitive_sentinel true "No differences found").1 (by decide)

/-! ### C6 — the parity-engine event stream -/

/-- C6: each adapter run yields one message event per non-empty output line, in order
(`message` is the stripped line text), followed by exactly one terminal event: for
scrub always `complete` with `success = (exitCode == 0)`; for sync `complete{success:
true}` on zero exit and `error{success:false}` on non-zero exit.  In particular three
lines and exit 0 yield exactly 3 message events then one `complete{success:true}`,
and exit 1 yields the 3 messages then one `error`. -/
theorem adapter_event_stream_shape (lines : List String) (returncode : Int) :
    sync_with_progress lines returncode
      = (lines.filter (fun l => l ≠ "")).map (fun l => ⟨"sync", pyStrip l, none⟩)
        ++ (if returncode = 0 then [⟨"complete", "اكتمل Sync بنجاح", some true⟩]
            else [⟨"error", "فشل Sync", some false⟩])
    ∧ scrub_with_progress lines returncode
      = (lines.filter (fun l => l ≠ "")).map (fun l => ⟨"scrub", pyStrip l, none⟩)
        ++ [⟨"complete", "اكتمل Scrub", some (decide (returncode = 0))⟩]
    ∧ sync_with_progress ["line one\n", "line two\n", "line three\n"] 0
      = [⟨"sync", "line one", none⟩, ⟨"sync", "line two", none⟩,
         ⟨"sync", "line three", none⟩, ⟨"complete", "اكتمل Sync بنجاح", some true⟩]
    ∧ sync_with_progress ["line one\n", "line two\n", "line three\n"] 1
      = [⟨"sync", "line one", none⟩, ⟨"sync", "line two", none⟩,
         ⟨"sync", "line three", none⟩, ⟨"error", "فشل Sync", some false⟩] := by
  refine ⟨?_, ?_, by decide, by decide⟩
  · show sync_line_events lines ++ _ = _
    congr 1
    induction lines with
    | nil => rfl
    | cons l rest ih =>
      by_cases h : l = "" <;> simp [sync_line_events, h, ih]
  · show scrub_line_events lines ++ _ = _
    congr 1
    induction lines with
    | nil => rfl
    | cons l rest ih =>
      by_cases h : l = "" <;> simp [scrub_line_events, h, ih]

/-! ### C9 — percentage delivery through the transport sink -/

/-- C9: `emit_progress` includes the `percentage` field iff the supplied value is
truthy (`if percentage:` — `None` and `0` are both falsy); in particular the
preparation pipeline's initial stage event carries percentage `0` and is delivered
without a percentage field. -/
theorem emit_progress_percentage_iff_truthy (step message : String) (p : Option ℚ)
    (env : Env) (disk_name label : String) :
    ((emit_progress step message p).percentage
        = if py_truthy_num p then p else none)
    ∧ ((emit_progress step message p).percentage ≠ none ↔ ∃ v, p = some v ∧ v ≠ 0)
    ∧ (events (prepare_disk env disk_name label).1).head?
        = some ⟨"preparing", s!"تحضير {disk_name}", 0⟩
    ∧ (emit_progress "preparing" s!"تحضير {disk_name}" (some 0)).percentage = none := by
  refine ⟨?_, ?_, ?_, ?_⟩
  · by_cases h : py_truthy_num p <;> simp [emit_progress, h]
  · cases p with
    | none => simp [emit_progress, py_truthy_num]
    | some v =>
      by_cases h : v = 0 <;> simp [emit_progress, py_truthy_num, h]
  · simp [prepare_disk, events]
  · simp [emit_progress, py_truthy_num]

/-! ### C10 — `get_uuid` and whole-disk identifiers ending in `'1'` -/

/-- C10: `get_uuid(d)` queries `blkid` for `d + "1"` when `d` does not end in the
character `'1'`, and for `d` itself when it already ends in `'1'`; consequently the
parity mount entry `setup_fstab` builds for a whole-disk identifier ending in `'1'`
(e.g. `/dev/nvme0n1`) is derived from the whole-disk path, not its first partition. -/
theorem get_uuid_partition_path (env : Env) (disk : String)
    (data_disks : List PreparedDisk) :
    (pyEndsWith disk "1" = true →
      (get_uuid env disk).2 = DiskManager.run_command env ("blkid -s UUID -o value " ++ disk)
      ∧ (fstab_new_entries env disk data_disks)[1]?
          = some ("UUID=" ++ DiskManager.run_command env ("blkid -s UUID -o value " ++ disk)
              ++ "  /mnt/parity  ext4  defaults,noatime,nofail  0  2"))
    ∧ (pyEndsWith disk "1" = false →
      (get_uuid env disk).2 = DiskManager.run_command env ("blkid -s UUID -o value " ++ (disk ++ "1"))) := by
  constructor
  · intro h
    constructor
    · simp [get_uuid, h, toString]
    · simp [fstab_new_entries, get_uuid, h, toString]
  · intro h
    simp [get_uuid, h, toString]

/-- C10 witness: a whole-disk identifier ending in `'1'`. -/
theorem get_uuid_partition_path_witness :
    (get_uuid envOk "/dev/nvme0n1").2
        = DiskManager.run_command envOk ("blkid -s UUID -o value " ++ "/dev/nvme0n1")
    ∧ (fstab_new_entries envOk "/dev/nvme0n1" [])[1]?
        = some ("UUID=" ++ DiskManager.run_command envOk ("blkid -s UUID -o value " ++ "/dev/nvme0n1")
            ++ "  /mnt/parity  ext4  defaults,noatime,nofail  0  2") :=
  (get_uuid_partition_path envOk "/dev/nvme0n1" []).1 (by decide)

/-! ### C1 — the missing disk-count guard -/

/-- C1 counterexample: the claim says a `setup_manual` call with fewer than 2 total
disks fails with `InsufficientDisks` and performs no destructive preparation.  On the
code, `setup_manual('/dev/sdb', [])` — one total disk — performs no check at all: it
reports success and has already issued the destructive `wipefs` on the disk. -/
theorem setup_manual_single_disk_no_guard :
    (setup_manual envOk "/dev/sdb" []).2.success = true
    ∧ "wipefs -af /dev/sdb" ∈ cmds (setup_manual envOk "/dev/sdb" []).1 := by
  decide

/-- C1 (amended): the `< 2` guard lives in `setup_automatic`, not `setup_manual`:
`setup_automatic` with fewer than 2 disks raises the insufficient-disks error before
any destructive operation (the raise precedes every traced action), while
`setup_manual` itself performs no disk-count check. -/
theorem setup_automatic_insufficient_disks (env : Env) (disk_list : List String)
    (h : disk_list.length < 2) :
    setup_automatic env disk_list = .error "يجب توفير قرصين على الأقل" := by
  unfold setup_automatic
  rw [if_pos h]

/-- C1 witness: a single-disk call of `setup_automatic`. -/
theorem setup_automatic_insufficient_disks_witness :
    setup_automatic envOk ["/dev/sda"] = .error "يجب توفير قرصين على الأقل" :=
  setup_automatic_insufficient_disks envOk ["/dev/sda"] (by decide)

/-! ### C2 — stage failures in `prepare_disk` -/

/-- C2 counterexample: the claim says a failing stage raises `PreparationFailed` and
aborts the remaining stages.  On the code, in an environment where every command
fails (`run_command` returns an `"Error: ..."` string — here the wipe stage's result
shows the failure), the format stage is still executed and the call still returns
`True`: nothing is raised and nothing is aborted. -/
theorem prepare_disk_ignores_stage_failure :
    DiskManager.run_command envFail "wipefs -af /dev/sdb" = "Error: boom"
    ∧ "mkfs.ext4 -F -L disk1 /dev/sdb1" ∈ cmds (prepare_disk envFail "/dev/sdb" "disk1").1
    ∧ (prepare_disk envFail "/dev/sdb" "disk1").2 = true := by
  decide

/-- C2 (amended): `prepare_disk` never detects stage failure: for every environment —
including ones where every stage fails — it issues the full fixed command sequence
(unmount, wipe, zero, mklabel, mkpart, partprobe, settle, format) in order, emits the
six stage events at 0/20/40/60/80/100, returns `True`, and raises nothing; and (as the
claim correctly says) nothing is rolled back. -/
theorem prepare_disk_runs_all_stages (env : Env) (disk_name label : String) :
    (prepare_disk env disk_name label).2 = true
    ∧ cmds (prepare_disk env disk_name label).1 = prep_commands disk_name label
    ∧ (events (prepare_disk env disk_name label).1).map PEvent.percentage
        = [0, 20, 40, 60, 80, 100] := by
  refine ⟨rfl, ?_, ?_⟩ <;> simp [prepare_disk, prep_commands, cmds, events, cmdItem]

/-! ### C7 — exclusion-rule priority -/

/-- The five exclusion predicates of the classification chain, indexed in the spec's
priority order (1 virtual device, 2 system disk, 3 external usb disk, 4 too small,
5 mounted on system path — here 0-based). -/
def rule_pred (mgr : Cfg) (env : Env) (system_disk disk : String) : Nat → Bool
  | 0 => mgr.excluded_types.any (fun t => t.toList.isPrefixOf disk.toList)
  | 1 => decide (disk = system_disk)
  | 2 => is_usb_disk env disk
  | 3 => decide (get_disk_size_gb env disk < mgr.min_size_gb)
  | 4 => is_system_mount env disk
  | _ => false

/-- The reason string reported for each rule. -/
def rule_reason (mgr : Cfg) : Nat → String
  | 0 => "جهاز افتراضي"
  | 1 => "قرص النظام"
  | 2 => "قرص USB خارجي"
  | 3 => s!"صغير جداً (< {mgr.min_size_gb}GB)"
  | 4 => "مثبت على مجلدات النظام"
  | _ => ""

/-- Spec-side classification: scan the rules in the fixed priority order, first match
wins, report that rule's reason. -/
def first_match_reason (mgr : Cfg) (env : Env) (system_disk disk : String) : Option String :=
  (((List.range 5).filter (fun i => rule_pred mgr env system_disk disk i)).head?).map
    (rule_reason mgr)

/-- Evaluation of the priority scan as a nested conditional. -/
theorem first_match_reason_eval (mgr : Cfg) (env : Env) (system_disk disk : String) :
    first_match_reason mgr env system_disk disk =
      if rule_pred mgr env system_disk disk 0 then some (rule_reason mgr 0)
      else if rule_pred mgr env system_disk disk 1 then some (rule_reason mgr 1)
      else if rule_pred mgr env system_disk disk 2 then some (rule_reason mgr 2)
      else if rule_pred mgr env system_disk disk 3 then some (rule_reason mgr 3)
      else if rule_pred mgr env system_disk disk 4 then some (rule_reason mgr 4)
      else none := by
  unfold first_match_reason
  rw [show List.range 5 = [0, 1, 2, 3, 4] from by decide]
  cases h0 : rule_pred mgr env system_disk disk 0 <;>
  cases h1 : rule_pred mgr env system_disk disk 1 <;>
  cases h2 : rule_pred mgr env system_disk disk 2 <;>
  cases h3 : rule_pred mgr env system_disk disk 3 <;>
  cases h4 : rule_pred mgr env system_disk disk 4 <;>
    simp [List.filter, h0, h1, h2, h3, h4]

/-- C7: the exclusion ladder of `detect_all_disks` reports exactly the first matching
rule of the priority list — a device matching several rules is excluded with only the
lowest-numbered rule's reason.  Concretely (the spec's own example): a device that is
both the system disk (rule 2) and undersized (rule 4) reports "system disk". -/
theorem excluded_reason_eq_first_match (mgr : Cfg) (env : Env) (system_disk disk : String) :
    excluded_reason mgr env system_disk disk = first_match_reason mgr env system_disk disk
    ∧ excluded_reason {} envOk "sda" "sda" = some "قرص النظام"
    ∧ rule_pred {} envOk "sda" "sda" 1 = true
    ∧ rule_pred {} envOk "sda" "sda" 3 = true := by
  refine ⟨?_, by decide, by decide, by decide⟩
  rw [first_match_reason_eval]
  unfold excluded_reason rule_pred rule_reason
  simp only [decide_eq_true_eq]

/-! ### C3 — progress events of the orchestrated run -/

/-- The step tags `setup_manual` itself emits (as opposed to the per-stage tags
`prepare_disk` emits through the same callback). -/
def orch_steps : List String := ["parity", "data", "fstab", "mergerfs", "snapraid"]

/-- The orchestrator-level progress events of a trace. -/
def orch_events (t : List TraceItem) : List PEvent :=
  (events t).filter (fun e => orch_steps.contains e.step)

theorem events_append (a b : List TraceItem) : events (a ++ b) = events a ++ events b :=
  List.filterMap_append a b _

theorem events_nil : events [] = [] := rfl

theorem events_cons_evt (e : PEvent) (t : List TraceItem) :
    events (.evt e :: t) = e :: events t := rfl

theorem events_cons_cmd (c r : String) (t : List TraceItem) :
    events (.cmd c r :: t) = events t := rfl

theorem events_cons_cmdItem (env : Env) (c : String) (t : List TraceItem) :
    events (cmdItem env c :: t) = events t := rfl

theorem events_cons_mkdirs (p : String) (t : List TraceItem) :
    events (.mkdirs p :: t) = events t := rfl

theorem events_cons_readFile (p : String) (t : List TraceItem) :
    events (.readFile p :: t) = events t := rfl

theorem events_cons_appendFile (p c : String) (t : List TraceItem) :
    events (.appendFile p c :: t) = events t := rfl

theorem events_cons_writeFile (p c : String) (t : List TraceItem) :
    events (.writeFile p c :: t) = events t := rfl

theorem events_prepare (env : Env) (disk_name label : String) :
    events (prepare_disk env disk_name label).1 =
      [⟨"preparing", s!"تحضير {disk_name}", 0⟩,
       ⟨"wiping", "مسح البيانات القديمة", 20⟩,
       ⟨"partitioning", "إنشاء جدول تقسيم", 40⟩,
       ⟨"creating", "إنشاء partition", 60⟩,
       ⟨"formatting", "تهيئة نظام الملفات", 80⟩,
       ⟨"complete", s!"اكتمل تحضير {disk_name}", 100⟩] := by
  simp [prepare_disk, events, cmdItem]

theorem orch_events_prepare (env : Env) (disk_name label : String) :
    orch_events (prepare_disk env disk_name label).1 = [] := by
  simp only [orch_events, events_prepare]
  simp [orch_steps]

theorem events_setup_fstab (env : Env) (parity_disk : String)
    (data_disks : List PreparedDisk) :
    events (setup_fstab env parity_disk data_disks) = [] := by
  have hmk : ∀ l : List PreparedDisk,
      events (l.map fun d => TraceItem.mkdirs s!"/mnt/disk{d.number}") = [] := by
    intro l
    induction l with
    | nil => rfl
    | cons d rest ih => simp [events, ih]
  have huu : ∀ l : List PreparedDisk,
      events ((l.map fun d => (get_uuid env d.disk).1).flatten) = [] := by
    intro l
    induction l with
    | nil => rfl
    | cons d rest ih => simp [events, get_uuid, cmdItem, ih]
  have h1 := hmk data_disks
  have h2 := huu data_disks
  simp only [setup_fstab, events_append] at *
  simp [events, get_uuid, cmdItem, h1, h2]

theorem events_setup_mergerfs (env : Env) :
    events (setup_mergerfs env) = [] := by
  simp [setup_mergerfs, events, cmdItem]

theorem events_setup_snapraid_config (parity_disk : String)
    (data_disks : List PreparedDisk) :
    events (setup_snapraid_config parity_disk data_disks) = [] := by
  simp [setup_snapraid_config, events]

theorem events_data_loop_length (env : Env) (T : Nat) (ds : List String) : ∀ idx : Nat,
    (events (data_loop env T ds idx).1).length = 7 * ds.length := by
  induction ds with
  | nil => intro idx; simp [data_loop, events_nil]
  | cons d rest ih =>
    intro idx
    simp only [data_loop, List.cons_append, events_cons_evt, events_append]
    rw [events_prepare]
    simp only [List.length_cons, List.length_append, List.length_nil, ih (idx + 1)]
    omega

theorem orch_events_data_loop (env : Env) (T : Nat) (ds : List String) : ∀ idx : Nat,
    (orch_events (data_loop env T ds idx).1).map PEvent.percentage =
      (List.range ds.length).map
        (fun i => (((1 + idx + i : ℕ) : ℚ) / ((T : ℕ) : ℚ)) * 100) := by
  induction ds with
  | nil => intro idx; simp [data_loop, orch_events, events_nil]
  | cons d rest ih =>
    intro idx
    have hpre := orch_events_prepare env d s!"disk{idx}"
    have hrec := ih (idx + 1)
    simp only [orch_events] at hpre hrec
    have hdata : orch_steps.contains "data" = true := by decide
    simp only [data_loop, List.length_cons, orch_events, List.cons_append,
      events_cons_evt, events_append, List.filter_cons, List.filter_append, hpre,
      List.nil_append, hdata, eq_self_iff_true, if_true]
    rw [List.range_succ_eq_map]
    simp only [List.map_cons, List.map_map, hrec]
    exact congrArg₂ List.cons (by push_cast; ring)
      (List.map_congr_left fun i _ => by
        simp only [Function.comp_apply]
        push_cast
        ring)

/-- C3 counterexample: the claim says the full event sequence delivered to the sink for
a parity + 2 data-disk run consists of exactly 6 strictly increasing progress events.
On the code, `setup_manual` hands the same callback to `prepare_disk`, so the sink
receives 24 events, and the sequence is not strictly increasing (it opens with the
parity step at `(1/6)*100` and immediately falls back to `0` for the first
preparation stage). -/
theorem setup_manual_sink_events_not_six :
    (events (setup_manual envOk "/dev/sda" ["/dev/sdb", "/dev/sdc"]).1).length = 24
    ∧ ¬ ((events (setup_manual envOk "/dev/sda" ["/dev/sdb", "/dev/sdc"]).1).map
          PEvent.percentage).Pairwise (· < ·) := by
  constructor
  · decide
  · intro hp
    have htake : ((events (setup_manual envOk "/dev/sda" ["/dev/sdb", "/dev/sdc"]).1).map
        PEvent.percentage).take 2 = [((1 : ℚ) / ((6 : ℕ) : ℚ)) * 100, 0] := by
      rw [show (["/dev/sdb", "/dev/sdc"] : List String) = ["/dev/sdb", "/dev/sdc"] from rfl]
      simp only [setup_manual, data_loop, List.cons_append, events_cons_evt, events_append,
        events_prepare]
      simp [List.take]
    have h2 := List.Pairwise.sublist (List.take_sublist 2 _) hp
    rw [htake] at h2
    have hlt := List.rel_of_pairwise_cons h2 (List.mem_singleton.mpr rfl)
    norm_num at hlt

/-- C3 (amended): `totalSteps = 1 + |dataDisks| + 3` as claimed, and before each
orchestrator step a progress event with `percentage = currentStep/totalSteps*100`
(`currentStep` counting the step about to run, 1-based — not `completedSteps`) is
emitted; these orchestrator-level percentages are strictly increasing and end at 100.
But the same sink also receives the six per-stage events (0..100) of each
`prepare_disk` call interleaved, so the full delivered sequence has
`7*|dataDisks| + 10` events (24 for parity + 2 data disks), not `totalSteps`
events, and is not strictly increasing. -/
theorem setup_manual_progress_events (env : Env) (parity_disk : String)
    (data_disks : List String) :
    ((orch_events (setup_manual env parity_disk data_disks).1).map PEvent.percentage
      = (List.range (1 + data_disks.length + 3)).map
          (fun k => (((k + 1 : ℕ) : ℚ) / ((1 + data_disks.length + 3 : ℕ) : ℚ)) * 100))
    ∧ ((orch_events (setup_manual env parity_disk data_disks).1).map
        PEvent.percentage).Pairwise (· < ·)
    ∧ ((orch_events (setup_manual env parity_disk data_disks).1).map
        PEvent.percentage).getLast? = some 100
    ∧ (events (setup_manual env parity_disk data_disks).1).length
        = 7 * data_disks.length + 10 := by
  have hpar := orch_events_prepare env parity_disk "parity"
  have hdl := orch_events_data_loop env (1 + data_disks.length + 3) data_disks 1
  simp only [orch_events] at hpar hdl
  have hparity : orch_steps.contains "parity" = true := by decide
  have hfstab : orch_steps.contains "fstab" = true := by decide
  have hmerg : orch_steps.contains "mergerfs" = true := by decide
  have hsnap : orch_steps.contains "snapraid" = true := by decide
  have hmain : (orch_events (setup_manual env parity_disk data_disks).1).map PEvent.percentage
      = (List.range (1 + data_disks.length + 3)).map
          (fun k => (((k + 1 : ℕ) : ℚ) / ((1 + data_disks.length + 3 : ℕ) : ℚ)) * 100) := by
    simp only [setup_manual, orch_events, List.cons_append, events_cons_evt, events_append,
      events_setup_fstab, events_setup_mergerfs, events_setup_snapraid_config,
      List.filter_cons, List.filter_append, hpar, List.filter_nil,
      hparity, hfstab, hmerg, hsnap, eq_self_iff_true, if_true,
      List.nil_append, List.append_nil, List.map_cons, List.map_append]
    rw [hdl]
    conv_rhs => rw [show (1 : ℕ) + data_disks.length + 3 = (1 + data_disks.length) + 3
      from rfl, List.range_add, List.range_add]
    rw [show List.range 1 = [0] from rfl, show List.range 3 = [0, 1, 2] from rfl]
    simp only [List.map_append, List.map_map, List.map_cons, List.map_nil,
      List.cons_append, List.nil_append, List.append_assoc]
    refine congrArg₂ List.cons (by push_cast; ring) (congrArg₂ HAppend.hAppend ?_ ?_)
    · exact List.map_congr_left fun i _ => by
        simp only [Function.comp_apply]
        push_cast
        ring
    · refine congrArg₂ List.cons (by push_cast; ring) (congrArg₂ List.cons (by push_cast; ring)
        (congrArg₂ List.cons (by push_cast; ring) rfl))
  refine ⟨hmain, ?_, ?_, ?_⟩
  · rw [hmain]
    refine (List.pairwise_lt_range _).map _ ?_
    intro a b hab
    have hT : (0 : ℚ) < ((1 + data_disks.length + 3 : ℕ) : ℚ) := by positivity
    have hlt : ((a + 1 : ℕ) : ℚ) < ((b + 1 : ℕ) : ℚ) := by
      exact_mod_cast Nat.succ_lt_succ hab
    exact mul_lt_mul_of_pos_right (div_lt_div_of_pos_right hlt hT) (by norm_num)
  · rw [hmain, show (1 : ℕ) + data_disks.length + 3 = (1 + data_disks.length + 2) + 1
      from rfl, List.range_succ, List.map_append]
    simp only [List.map_cons, List.map_nil, List.getLast?_concat]
    congr 1
    rw [div_self (by positivity), one_mul]
  · simp only [setup_manual, List.cons_append, events_cons_evt, events_append,
      events_setup_fstab, events_setup_mergerfs, events_setup_snapraid_config]
    rw [events_prepare]
    simp only [List.length_cons, List.length_append, List.length_nil]
    rw [events_data_loop_length env (1 + data_disks.length + 3) data_disks 1]
    omega

/-! ### C8 — ordering of the `available` list -/

theorem stable_desc_rel_trans {α : Type} (key : α → ℚ) (p q r : Nat × α)
    (hpq : stable_desc_rel key p q) (hqr : stable_desc_rel key q r) :
    stable_desc_rel key p r := by
  rcases hpq with h1 | ⟨h1, h1'⟩ <;> rcases hqr with h2 | ⟨h2, h2'⟩
  · exact Or.inl (h2.trans h1)
  · exact Or.inl (h2 ▸ h1)
  · exact Or.inl (h1 ▸ h2)
  · exact Or.inr ⟨h1.trans h2, h1'.trans h2'⟩

theorem stable_desc_rel_total {α : Type} (key : α → ℚ) (p q : Nat × α) :
    stable_desc_rel key p q ∨ stable_desc_rel key q p := by
  rcases lt_trichotomy (key p.2) (key q.2) with h | h | h
  · exact Or.inr (Or.inl h)
  · rcases Nat.le_total p.1 q.1 with h' | h'
    · exact Or.inl (Or.inr ⟨h, h'⟩)
    · exact Or.inr (Or.inr ⟨h.symm, h'⟩)
  · exact Or.inl (Or.inl h)

/-- Unfolding the classification loop on a non-empty name that is not excluded. -/
theorem classify_all_cons_available (mgr : Cfg) (env : Env) (fs : Fs)
    (system_disk disk : String) (rest : List String) (hne : ¬ disk = "")
    (hr : excluded_reason mgr env system_disk disk = none) :
    classify_all mgr env fs system_disk (disk :: rest)
      = (disk_info_of mgr env fs system_disk disk
            :: (classify_all mgr env fs system_disk rest).1,
         (classify_all mgr env fs system_disk rest).2) := by
  simp only [classify_all, hr, if_neg hne]

/-- Facts provider used by the C8 counterexample: two non-system, non-USB, unmounted
disks whose byte sizes differ (10 GiB vs ≈10.037 GiB) but whose displayed sizes both
round to "10.0 GB". -/
def env_close_sizes : Env := fun c =>
  if c = lsblk_names_cmd then .ok "sda\nsdb"
  else if c = "lsblk -bdn -o SIZE /dev/sda 2>/dev/null" then .ok "10737418240"
  else if c = "lsblk -bdn -o SIZE /dev/sdb 2>/dev/null" then .ok "10777000000"
  else .ok ""

/-- Facts provider realising the spec's example sizes (500 GB, 2 TB, 1 TB, as GiB
multiples) for disks `sda`, `sdb`, `sdc` in that enumeration order. -/
def env_spec_sizes : Env := fun c =>
  if c = lsblk_names_cmd then .ok "sda\nsdb\nsdc"
  else if c = "lsblk -bdn -o SIZE /dev/sda 2>/dev/null" then .ok "536870912000"
  else if c = "lsblk -bdn -o SIZE /dev/sdb 2>/dev/null" then .ok "2199023255552"
  else if c = "lsblk -bdn -o SIZE /dev/sdc 2>/dev/null" then .ok "1099511627776"
  else .ok ""

/-- `/sys` provider with no readable files. -/
def fsNone : Fs := fun _ => none

/-- Evaluation helper for `get_disk_size_gb` at concrete inputs. -/
theorem get_disk_size_gb_eval (env : Env) (disk_name out : String) (n : ℤ)
    (h : DiskManager.run_command env s!"lsblk -bdn -o SIZE /dev/{disk_name} 2>/dev/null" = out)
    (h2 : pyInt? out = some n) :
    get_disk_size_gb env disk_name = (n : ℚ) / 1024 ^ 3 := by
  unfold get_disk_size_gb
  rw [h]
  dsimp only
  rw [h2]

theorem size_close_sda : get_disk_size_gb env_close_sizes "sda" = 10737418240 / 1024 ^ 3 :=
  get_disk_size_gb_eval env_close_sizes "sda" "10737418240" 10737418240 (by decide) (by decide)

theorem size_close_sdb : get_disk_size_gb env_close_sizes "sdb" = 10777000000 / 1024 ^ 3 :=
  get_disk_size_gb_eval env_close_sizes "sdb" "10777000000" 10777000000 (by decide) (by decide)

theorem reason_close_sda : excluded_reason {} env_close_sizes "" "sda" = none := by
  unfold excluded_reason
  rw [if_neg (by decide), if_neg (by decide), if_neg (by decide),
    if_neg (show ¬ get_disk_size_gb env_close_sizes "sda" < ({} : Cfg).min_size_gb from by
      rw [size_close_sda]; norm_num [Cfg.min_size_gb]),
    if_neg (by decide)]

theorem reason_close_sdb : excluded_reason {} env_close_sizes "" "sdb" = none := by
  unfold excluded_reason
  rw [if_neg (by decide), if_neg (by decide), if_neg (by decide),
    if_neg (show ¬ get_disk_size_gb env_close_sizes "sdb" < ({} : Cfg).min_size_gb from by
      rw [size_close_sdb]; norm_num [Cfg.min_size_gb]),
    if_neg (by decide)]

theorem key_close_sda :
    parse_size (format_size (get_disk_size_gb env_close_sizes "sda")) = 10 := by
  rw [size_close_sda]
  norm_num [format_size, parse_size, round1, roundHalfEven]

theorem key_close_sdb :
    parse_size (format_size (get_disk_size_gb env_close_sizes "sdb")) = 10 := by
  rw [size_close_sdb]
  norm_num [format_size, parse_size, round1, roundHalfEven]

/-- C8 counterexample: the claim says `available` is sorted by disk size in descending
order with ties broken stably.  The sort key is `parse_size(format_size(size))` — the
*displayed* size, rounded to one decimal — not the size itself.  With `sda` of exactly
10 GiB enumerated before a strictly larger `sdb` of ≈10.037 GiB, both display as
"10.0 GB", so the stable sort keeps `sda` first and the result is not in descending
order of the true sizes. -/
theorem detect_available_not_sorted_by_true_size :
    (detect_all_disks {} env_close_sizes fsNone).available.map DiskInfo.name
      = ["/dev/sda", "/dev/sdb"]
    ∧ get_disk_size_gb env_close_sizes "sda" < get_disk_size_gb env_close_sizes "sdb" := by
  constructor
  · have hclass : detect_classified {} env_close_sizes fsNone
        = ([disk_info_of {} env_close_sizes fsNone "" "sda",
            disk_info_of {} env_close_sizes fsNone "" "sdb"], []) := by
      unfold detect_classified
      rw [show get_system_disk env_close_sizes = "" from by decide,
        show pySplitNl (DiskManager.run_command env_close_sizes lsblk_names_cmd)
          = ["sda", "sdb"] from by decide]
      rw [classify_all_cons_available _ _ _ _ _ _ (by decide) reason_close_sda,
        classify_all_cons_available _ _ _ _ _ _ (by decide) reason_close_sdb]
      rfl
    have hrel : stable_desc_rel (fun i : DiskInfo => parse_size i.size)
        (0, disk_info_of {} env_close_sizes fsNone "" "sda")
        (1, disk_info_of {} env_close_sizes fsNone "" "sdb") := by
      refine Or.inr ⟨?_, by norm_num⟩
      show parse_size (disk_info_of {} env_close_sizes fsNone "" "sda").size
        = parse_size (disk_info_of {} env_close_sizes fsNone "" "sdb").size
      simp only [disk_info_of]
      rw [key_close_sda, key_close_sdb]
    simp only [detect_all_disks, hclass, py_sort_desc]
    simp only [List.enum, List.enumFrom, List.insertionSort, List.orderedInsert]
    rw [if_pos hrel]
    simp [disk_info_of]
  · rw [size_close_sda, size_close_sdb]
    norm_num

theorem size_spec_sda : get_disk_size_gb env_spec_sizes "sda" = 536870912000 / 1024 ^ 3 :=
  get_disk_size_gb_eval env_spec_sizes "sda" "536870912000" 536870912000 (by decide) (by decide)

theorem size_spec_sdb : get_disk_size_gb env_spec_sizes "sdb" = 2199023255552 / 1024 ^ 3 :=
  get_disk_size_gb_eval env_spec_sizes "sdb" "2199023255552" 2199023255552 (by decide) (by decide)

theorem size_spec_sdc : get_disk_size_gb env_spec_sizes "sdc" = 1099511627776 / 1024 ^ 3 :=
  get_disk_size_gb_eval env_spec_sizes "sdc" "1099511627776" 1099511627776 (by decide) (by decide)

theorem reason_spec_sda : excluded_reason {} env_spec_sizes "" "sda" = none := by
  unfold excluded_reason
  rw [if_neg (by decide), if_neg (by decide), if_neg (by decide),
    if_neg (show ¬ get_disk_size_gb env_spec_sizes "sda" < ({} : Cfg).min_size_gb from by
      rw [size_spec_sda]; norm_num [Cfg.min_size_gb]),
    if_neg (by decide)]

theorem reason_spec_sdb : excluded_reason {} env_spec_sizes "" "sdb" = none := by
  unfold excluded_reason
  rw [if_neg (by decide), if_neg (by decide), if_neg (by decide),
    if_neg (show ¬ get_disk_size_gb env_spec_sizes "sdb" < ({} : Cfg).min_size_gb from by
      rw [size_spec_sdb]; norm_num [Cfg.min_size_gb]),
    if_neg (by decide)]

theorem reason_spec_sdc : excluded_reason {} env_spec_sizes "" "sdc" = none := by
  unfold excluded_reason
  rw [if_neg (by decide), if_neg (by decide), if_neg (by decide),
    if_neg (show ¬ get_disk_size_gb env_spec_sizes "sdc" < ({} : Cfg).min_size_gb from by
      rw [size_spec_sdc]; norm_num [Cfg.min_size_gb]),
    if_neg (by decide)]

theorem key_spec_sda :
    parse_size (format_size (get_disk_size_gb env_spec_sizes "sda")) = 500 := by
  rw [size_spec_sda]
  norm_num [format_size, parse_size, round1, roundHalfEven]

theorem key_spec_sdb :
    parse_size (format_size (get_disk_size_gb env_spec_sizes "sdb")) = 2000 := by
  rw [size_spec_sdb]
  norm_num [format_size, parse_size, round1, roundHalfEven]

theorem key_spec_sdc :
    parse_size (format_size (get_disk_size_gb env_spec_sizes "sdc")) = 1000 := by
  rw [size_spec_sdc]
  norm_num [format_size, parse_size, round1, roundHalfEven]

/-- C8 (amended): `available` is sorted in descending order of the *displayed* size
(the `parse_size ∘ format_size` key, i.e. the size rounded to one decimal in GB/TB),
with ties broken stably by the original enumeration order (the pairwise
`stable_desc_rel` over the index-tagged list); it is a permutation of the classified
available disks; and on the spec's example — sizes 500 GB, 2 TB, 1 TB enumerated in
that order — the result is ordered [2 TB, 1 TB, 500 GB]. -/
theorem detect_available_sorted_by_display_size (mgr : Cfg) (env : Env) (fs : Fs) :
    ((detect_all_disks mgr env fs).available
      = (List.insertionSort (stable_desc_rel fun i : DiskInfo => parse_size i.size)
          (detect_classified mgr env fs).1.enum).map Prod.snd)
    ∧ (List.insertionSort (stable_desc_rel fun i : DiskInfo => parse_size i.size)
        (detect_classified mgr env fs).1.enum).Pairwise
          (stable_desc_rel fun i : DiskInfo => parse_size i.size)
    ∧ (detect_all_disks mgr env fs).available.Perm (detect_classified mgr env fs).1
    ∧ ((detect_all_disks mgr env fs).available.map fun i : DiskInfo =>
        parse_size i.size).Pairwise (· ≥ ·)
    ∧ (detect_all_disks mgr env fs).count_available
        = (detect_all_disks mgr env fs).available.length
    ∧ (detect_all_disks {} env_spec_sizes fsNone).available.map DiskInfo.name
        = ["/dev/sdb", "/dev/sdc", "/dev/sda"] := by
  letI : IsTrans (Nat × DiskInfo) (stable_desc_rel fun i : DiskInfo => parse_size i.size) :=
    ⟨stable_desc_rel_trans _⟩
  letI : IsTotal (Nat × DiskInfo) (stable_desc_rel fun i : DiskInfo => parse_size i.size) :=
    ⟨stable_desc_rel_total _⟩
  have h1 : (detect_all_disks mgr env fs).available
      = (List.insertionSort (stable_desc_rel fun i : DiskInfo => parse_size i.size)
          (detect_classified mgr env fs).1.enum).map Prod.snd := rfl
  have h2 := List.sorted_insertionSort
    (stable_desc_rel fun i : DiskInfo => parse_size i.size)
    (detect_classified mgr env fs).1.enum
  refine ⟨h1, h2, ?_, ?_, rfl, ?_⟩
  · rw [h1]
    exact ((List.perm_insertionSort _ _).map Prod.snd).trans
      (by rw [List.enum_map_snd])
  · rw [h1, List.map_map]
    refine h2.map _ ?_
    intro p q hpq
    rcases hpq with h | ⟨h, _⟩
    · exact le_of_lt h
    · exact le_of_eq h.symm
  · have hclass : detect_classified {} env_spec_sizes fsNone
        = ([disk_info_of {} env_spec_sizes fsNone "" "sda",
            disk_info_of {} env_spec_sizes fsNone "" "sdb",
            disk_info_of {} env_spec_sizes fsNone "" "sdc"], []) := by
      unfold detect_classified
      rw [show get_system_disk env_spec_sizes = "" from by decide,
        show pySplitNl (DiskManager.run_command env_spec_sizes lsblk_names_cmd)
          = ["sda", "sdb", "sdc"] from by decide]
      rw [classify_all_cons_available _ _ _ _ _ _ (by decide) reason_spec_sda,
        classify_all_cons_available _ _ _ _ _ _ (by decide) reason_spec_sdb,
        classify_all_cons_available _ _ _ _ _ _ (by decide) reason_spec_sdc]
      rfl
    have kA : parse_size (disk_info_of {} env_spec_sizes fsNone "" "sda").size = 500 := by
      simp only [disk_info_of]; exact key_spec_sda
    have kB : parse_size (disk_info_of {} env_spec_sizes fsNone "" "sdb").size = 2000 := by
      simp only [disk_info_of]; exact key_spec_sdb
    have kC : parse_size (disk_info_of {} env_spec_sizes fsNone "" "sdc").size = 1000 := by
      simp only [disk_info_of]; exact key_spec_sdc
    have hrelBC : stable_desc_rel (fun i : DiskInfo => parse_size i.size)
        (1, disk_info_of {} env_spec_sizes fsNone "" "sdb")
        (2, disk_info_of {} env_spec_sizes fsNone "" "sdc") := by
      unfold stable_desc_rel
      dsimp only
      rw [kB, kC]
      norm_num
    have hnAB : ¬ stable_desc_rel (fun i : DiskInfo => parse_size i.size)
        (0, disk_info_of {} env_spec_sizes fsNone "" "sda")
        (1, disk_info_of {} env_spec_sizes fsNone "" "sdb") := by
      unfold stable_desc_rel
      dsimp only
      rw [kA, kB]
      norm_num
    have hnAC : ¬ stable_desc_rel (fun i : DiskInfo => parse_size i.size)
        (0, disk_info_of {} env_spec_sizes fsNone "" "sda")
        (2, disk_info_of {} env_spec_sizes fsNone "" "sdc") := by
      unfold stable_desc_rel
      dsimp only
      rw [kA, kC]
      norm_num
    simp only [detect_all_disks, hclass, py_sort_desc]
    simp only [List.enum, List.enumFrom, List.insertionSort]
    simp only [List.orderedInsert]
    rw [if_pos hrelBC]
    simp only [List.orderedInsert]
    rw [if_neg hnAB]
    rw [if_neg hnAC]
    simp [disk_info_of]

end SSM
